import Mathlib

/-!
Shallow embedding of the presentation state machine of `src/tui.go`
(package `main` of Siris01/sotui): the `Model` record, its `Update`
event handler and its `View` renderer, together with the parts of the
search-response data model that the handler consumes.

External widget libraries (bubbles textarea/table/viewport/spinner,
glamour, lipgloss) are collaborators outside the repository; they are
modelled at their interface boundary: a widget is the state the handler
reads and writes, generic input forwarded to a focused widget is a
dedicated message constructor, and the markdown/styling renderers are
abstract pure text transforms.  Side effects that `Update` triggers
(spawning the search goroutine, scheduling the notification-clear
timer, emitting log messages, quitting) are reified as an explicit
effect list returned next to the new model.
-/

namespace Sotui

/-- `State` enumeration from tui.go (lines 32-39). -/
inductive State where
  | WaitingForInput
  | WaitingForResponse
  | DisplayingAllQuestions
  | DisplayingQuestionAndAnswers
  | DisplayingAllComments
  | DisplayingHelpScreen
  deriving DecidableEq, Repr

/-- `LogType` enumeration from tui.go (lines 41-45). -/
inductive LogType where
  | Info
  | Warning
  | Error
  deriving DecidableEq, Repr

/-- `Log` record from tui.go (lines 20-23): message text and severity
(the Go field is named `Type`, a reserved word here). -/
structure Log where
  Msg : String
  Kind : LogType
  deriving DecidableEq, Repr

/-- Modelled from the spec: one answer of a `ResultItem`, carrying its own
markdown body.  The Go struct lives in a repository file outside src/. -/
structure Answer where
  BodyMarkdown : String
  deriving DecidableEq, Repr

/-- Modelled from the spec: a `ResultItem` — identifier, title, markdown
body, score, view count and ordered answers.  The Go struct
(`ResponseItem`) lives in a repository file outside src/; tui.go reads
exactly the fields `QuestionID`, `Title`, `BodyMarkdown` and `Answers`,
and the Result Projection additionally reads `Score` and `ViewCount`. -/
structure ResponseItem where
  QuestionID : Int
  Title : String
  BodyMarkdown : String
  Score : Int
  ViewCount : Int
  Answers : List Answer
  deriving DecidableEq, Repr

/-- The Go zero value `ResponseItem{}` used as the empty placeholder when
the selected identifier resolves to no item (tui.go line 219). -/
def emptyResponseItem : ResponseItem :=
  { QuestionID := 0, Title := "", BodyMarkdown := "", Score := 0,
    ViewCount := 0, Answers := [] }

/-- Modelled from the spec: `SEResponse`, the search outcome — an ordered
sequence of result items; the empty sequence is the valid "no matches"
outcome.  The Go struct lives in a repository file outside src/. -/
structure SEResponse where
  Items : List ResponseItem
  deriving DecidableEq, Repr

/-- Modelled from the spec: the Result Projection `SEResponse.ToRows`
(defined in a repository file outside src/) — one table row per item,
columns identifier, title, score, view count, in that order, values as
display strings. -/
def SEResponse.ToRows (r : SEResponse) : List (List String) :=
  r.Items.map (fun it =>
    [toString it.QuestionID, it.Title, toString it.Score, toString it.ViewCount])

/-- The bubbles textarea widget at its interface boundary: the entered
text, whether it has focus, and its width.  Character input is forwarded
to it only while focused. -/
structure Textarea where
  value : String
  focused : Bool
  width : Int
  deriving DecidableEq, Repr

/-- The bubbles table widget at its interface boundary: its rows, the
cursor (selection index; navigation clamps it to the rows, but `SetRows`
replaces the rows without touching it), focus, and dimensions. -/
structure Table where
  rows : List (List String)
  cursor : Nat
  focused : Bool
  width : Int
  height : Int
  deriving DecidableEq, Repr

/-- The bubbles viewport widget at its interface boundary: the document
content, dimensions, and vertical scroll offset. -/
structure Viewport where
  content : String
  width : Int
  height : Int
  yOffset : Nat
  deriving DecidableEq, Repr

/-- `Model` from tui.go (lines 47-56).  The spinner holds no state the
handler reads, so it is elided; `err` is the latched fatal error
(`error` in Go, its message text here). -/
structure Model where
  table : Table
  textarea : Textarea
  viewport : Viewport
  mouse : Bool
  response : SEResponse
  state : State
  err : Option String
  deriving DecidableEq, Repr

/-- Events entering `Update`.  `windowSize`, `keyCtrlS`, `keyQuit`
(Ctrl-C/Esc), `keyBackspace`, `keyEnter`, `seResponse`, `logMsg` and
`errMsg` are the cases tui.go switches on; `typeChar`, `tableCursor`
and `scrollTo` model the remaining input events the spec says are
forwarded to the focused sub-widget for default handling. -/
inductive Msg where
  | windowSize (width height : Int)
  | keyCtrlS
  | keyQuit
  | keyBackspace
  | keyEnter
  | typeChar (c : Char)
  | tableCursor (n : Nat)
  | scrollTo (n : Nat)
  | seResponse (r : SEResponse)
  | logMsg (l : Log)
  | errMsg (e : String)
  deriving DecidableEq, Repr

/-- Effects `Update` triggers, reified.  `dispatchSearch` is the goroutine
calling `Search(question, "", "", "", "")` and sending its outcome back
(tui.go lines 199-205); `spinnerTick` is `spinner.Tick`;
`emitLog` is `getLogCmd` (a log message delivered back through the
event pipeline); `scheduleClearLog d` is the goroutine sleeping `d`
seconds and then sending the empty log message (lines 265-268);
`mouseCtl` is `tea.EnableMouseCellMotion` or `tea.DisableMouse`;
`quit` is `tea.Quit`. -/
inductive Eff where
  | dispatchSearch (query tags site sortBy order : String)
  | spinnerTick
  | emitLog (msg : String) (t : LogType)
  | scheduleClearLog (delaySeconds : Nat)
  | mouseCtl (enabled : Bool)
  | quit
  deriving DecidableEq, Repr

/-- Whether an effect dispatches a search. -/
def Eff.isDispatch : Eff → Bool
  | Eff.dispatchSearch _ _ _ _ _ => true
  | _ => false

/-- Accumulate decimal digits; any non-digit character is a parse error. -/
def digitsToNat (cs : List Char) (acc : Nat) : Option Nat :=
  match cs with
  | [] => some acc
  | c :: rest => if c.isDigit then digitsToNat rest (acc * 10 + (c.toNat - 48)) else none

/-- Parse a non-empty all-digit run. -/
def parseDigits (cs : List Char) : Option Nat :=
  match cs with
  | [] => none
  | _ => digitsToNat cs 0

/-- Go `strconv.Atoi` as used at tui.go line 212: optional sign then
decimal digits; its error return is discarded there, and on a parse
failure `Atoi` yields 0. -/
def atoi (s : String) : Int :=
  match s.data with
  | '+' :: rest =>
      match parseDigits rest with
      | some n => Int.ofNat n
      | none => 0
  | '-' :: rest =>
      match parseDigits rest with
      | some n => -(Int.ofNat n)
      | none => 0
  | cs =>
      match parseDigits cs with
      | some n => Int.ofNat n
      | none => 0

/-- The external markdown renderer (`glamour.Render`) at its interface
boundary: a pure text transform, taken as the identity embedding. -/
def glamourRender (md : String) : String := md

/-- The external `lipgloss` bordered-block styling at its interface
boundary: a pure text transform, taken as the identity embedding. -/
def borderRender (s : String) : String := s

/-- The horizontal rule of tui.go line 222: a dash repeated to the
viewport width (styling elided as a pure transform). -/
def hrRender (width : Int) : String :=
  String.mk (List.replicate width.toNat '-')

/-- The detail-view document built at tui.go lines 222-231: rendered
question heading and body, horizontal rule, rendered answers heading,
then each answer's rendered body in a bordered block, in order. -/
def buildDoc (width : Int) (row : ResponseItem) : String :=
  let hr := hrRender width
  let question := glamourRender ("# " ++ row.Title ++ "\n\n" ++ row.BodyMarkdown)
  let answersHeader := glamourRender "\n\n\n\n# Answers:\n\n"
  let answers := row.Answers.foldl
    (fun acc a => acc ++ borderRender (glamourRender a.BodyMarkdown ++ "\n\n"))
    answersHeader
  question ++ hr ++ answers

/-- The selection-resolution loop of tui.go lines 213-220: the first item
whose `QuestionID` equals the selected row id, else the zero-value
placeholder `ResponseItem{}`. -/
def findRow (items : List ResponseItem) (rid : Int) : ResponseItem :=
  match items with
  | [] => emptyResponseItem
  | it :: rest => if it.QuestionID = rid then it else findRow rest rid

/-- `m.table.SelectedRow()` (tui.go line 212): the row at the widget's
cursor.  `none` marks the cursor lying outside the rows, where the Go
widget's indexing panics. -/
def selectedRow? (m : Model) : Option (List String) :=
  m.table.rows.get? m.table.cursor

/-- The id of the selected table row, `strconv.Atoi(m.table.SelectedRow()[0])`
(tui.go line 212).  The defaults stand in for the index-out-of-range
panic Go raises at this read (the `none` of `selectedRow?`), keeping the
step function total. -/
def selectedRowId (m : Model) : Int :=
  atoi (((selectedRow? m).getD []).getD 0 "")

/-- Forwarded default handling of the textarea widget (tui.go line 152):
character input edits the text only while focused; backspace deletes the
last character while focused.  Other messages leave it unchanged. -/
def textareaUpdate (t : Textarea) : Msg → Textarea
  | Msg.typeChar c => if t.focused then { t with value := t.value.push c } else t
  | Msg.keyBackspace => if t.focused then { t with value := t.value.dropRight 1 } else t
  | _ => t

/-- Forwarded default handling of the table widget (tui.go line 153):
navigation moves the cursor while focused, the widget keeping it within
the rows.  Other messages leave it unchanged. -/
def tableUpdate (t : Table) : Msg → Table
  | Msg.tableCursor n =>
      if t.focused && !t.rows.isEmpty
      then { t with cursor := min n (t.rows.length - 1) }
      else t
  | _ => t

/-- Forwarded default handling of the viewport widget (tui.go line 154):
scrolling adjusts the offset.  Other messages leave it unchanged. -/
def viewportUpdate (v : Viewport) : Msg → Viewport
  | Msg.scrollTo n => { v with yOffset := n }
  | _ => v

/-- `table.SetRows` followed by `table.Focus()` as in the non-empty
response branch (tui.go lines 247-249).  The bubbles `SetRows` replaces
the rows without clamping the cursor, so a stale cursor can exceed a
shrunken row set. -/
def tableSetRowsFocus (t : Table) (rs : List (List String)) : Table :=
  { t with rows := rs, focused := true }

/-- `Model.Update` from tui.go (lines 144-279): first the four sub-widget
updates, then the message switch.  The search goroutine of the
Enter/WaitingForInput branch reads the entered text and is reified as a
`dispatchSearch` effect (its `textarea.Reset()` acts on the goroutine's
copy of the model, racing the handler's return, and never reaches the
model the runtime keeps, so the returned model's textarea is unchanged). -/
def update (m : Model) (msg : Msg) : Model × List Eff :=
  let m : Model :=
    { m with
      textarea := textareaUpdate m.textarea msg,
      table := tableUpdate m.table msg,
      viewport := viewportUpdate m.viewport msg }
  match msg with
  | Msg.windowSize w h =>
      ({ m with
          table := { m.table with height := h - 2, width := w - 4 },
          viewport := { m.viewport with height := h - 2, width := w - 4 },
          textarea := { m.textarea with width := w - 4 } }, [])
  | Msg.keyCtrlS =>
      if m.mouse then
        ({ m with mouse := false },
         [Eff.mouseCtl false, Eff.emitLog "Disabled mouse scroll/clicks" LogType.Info])
      else
        ({ m with mouse := true },
         [Eff.mouseCtl true, Eff.emitLog "Enabled mouse scroll/clicks" LogType.Info])
  | Msg.keyQuit => (m, [Eff.quit])
  | Msg.keyBackspace =>
      if m.state = State.DisplayingHelpScreen then
        ({ m with state := State.WaitingForInput }, [])
      else if m.state = State.DisplayingAllComments then
        ({ m with state := State.DisplayingQuestionAndAnswers }, [])
      else if m.state = State.DisplayingQuestionAndAnswers then
        ({ m with state := State.DisplayingAllQuestions,
                  table := { m.table with focused := true } }, [])
      else if m.state = State.DisplayingAllQuestions then
        ({ m with state := State.WaitingForInput,
                  textarea := { m.textarea with focused := true } }, [])
      else (m, [])
  | Msg.keyEnter =>
      if m.state = State.WaitingForInput then
        ({ m with state := State.WaitingForResponse },
         [Eff.dispatchSearch m.textarea.value "" "" "" "", Eff.spinnerTick])
      else if m.state = State.DisplayingAllQuestions then
        let rid := selectedRowId m
        let row := findRow m.response.Items rid
        ({ m with state := State.DisplayingQuestionAndAnswers,
                  table := { m.table with focused := false },
                  viewport := { m.viewport with
                                content := buildDoc m.viewport.width row,
                                yOffset := 0 } }, [])
      else (m, [])
  | Msg.seResponse r =>
      if r.Items.isEmpty then
        ({ m with state := State.WaitingForInput,
                  textarea := { m.textarea with focused := false, value := "" } },
         [Eff.emitLog "No results found" LogType.Warning])
      else
        ({ m with response := r,
                  state := State.DisplayingAllQuestions,
                  table := tableSetRowsFocus m.table r.ToRows,
                  textarea := { m.textarea with focused := false } }, [])
  | Msg.logMsg l =>
      if l.Msg = "" then (m, [])
      else (m, [Eff.scheduleClearLog 3])
  | Msg.errMsg e => ({ m with err := some e }, [])
  | _ => (m, [])

/-- `initialModel` from tui.go (lines 72-115): textarea focused and
empty at width 30, viewport 30 by 3, table 30 wide and 10 high with no
rows, mouse enabled, no response, `WaitingForInput`, no error. -/
def initialModel : Model :=
  { table := { rows := [], cursor := 0, focused := false, width := 30, height := 10 },
    textarea := { value := "", focused := true, width := 30 },
    viewport := { content := "", width := 30, height := 3, yOffset := 0 },
    mouse := true,
    response := { Items := [] },
    state := State.WaitingForInput,
    err := none }

/-- The external textarea rendering at its interface boundary: a pure
function of the widget state. -/
def textareaView (t : Textarea) : String := t.value

/-- The external table rendering at its interface boundary: a pure
function of the widget state. -/
def tableView (t : Table) : String := String.intercalate "\n" (t.rows.map (String.intercalate " "))

/-- The external spinner rendering at its interface boundary. -/
def spinnerView : String := "."

/-- `Model.View` from tui.go (lines 281-295): a latched error renders its
text before any state is consulted; otherwise one branch per state. -/
def Model.view (m : Model) : String :=
  match m.err with
  | some e => e
  | none =>
      if m.state = State.WaitingForInput then textareaView m.textarea
      else if m.state = State.WaitingForResponse then spinnerView ++ " Searching..."
      else if m.state = State.DisplayingAllQuestions then tableView m.table
      else if m.state = State.DisplayingQuestionAndAnswers
              ∨ m.state = State.DisplayingAllComments
              ∨ m.state = State.DisplayingHelpScreen then m.viewport.content
      else ""

/-- Sessions reachable from startup through the event pipeline. -/
inductive Reachable : Model → Prop where
  | init : Reachable initialModel
  | step (m : Model) (msg : Msg) : Reachable m → Reachable (update m msg).1

/-- The two-item search result of the spec's selection example. -/
def sampleItems : List ResponseItem :=
  [{ QuestionID := 1, Title := "A", BodyMarkdown := "", Score := 0,
     ViewCount := 0, Answers := [] },
   { QuestionID := 2, Title := "B", BodyMarkdown := "", Score := 0,
     ViewCount := 0, Answers := [] }]

/-- A session showing the two-item result list with row id 2 selected. -/
def sampleModel : Model :=
  { initialModel with
      state := State.DisplayingAllQuestions,
      response := { Items := sampleItems },
      table := { rows := SEResponse.ToRows { Items := sampleItems },
                 cursor := 1, focused := true, width := 30, height := 10 } }

/-- A five-item search result. -/
def fiveItems : List ResponseItem :=
  [{ QuestionID := 1, Title := "Q1", BodyMarkdown := "", Score := 0,
     ViewCount := 0, Answers := [] },
   { QuestionID := 2, Title := "Q2", BodyMarkdown := "", Score := 0,
     ViewCount := 0, Answers := [] },
   { QuestionID := 3, Title := "Q3", BodyMarkdown := "", Score := 0,
     ViewCount := 0, Answers := [] },
   { QuestionID := 4, Title := "Q4", BodyMarkdown := "", Score := 0,
     ViewCount := 0, Answers := [] },
   { QuestionID := 5, Title := "Q5", BodyMarkdown := "", Score := 0,
     ViewCount := 0, Answers := [] }]

/-- The session reached from startup by: submitting a query, receiving a
five-item result, moving the table cursor to row 4, backing out to the
input, submitting again, and receiving the two-item result.  `SetRows`
does not clamp, so the cursor is left at 4 over two rows. -/
def staleModel : Model :=
  (update (update (update (update (update (update initialModel
      Msg.keyEnter).1
      (Msg.seResponse { Items := fiveItems })).1
      (Msg.tableCursor 4)).1
      Msg.keyBackspace).1
      Msg.keyEnter).1
      (Msg.seResponse { Items := sampleItems })).1

/-- C1 (counterexample): the claim fails — a search-outcome event processed
while the state is `DisplayingQuestionAndAnswers` (not `WaitingForResponse`)
does mutate the session: the empty outcome resets it to `WaitingForInput`. -/
theorem c1_counterexample :
    ({ initialModel with state := State.DisplayingQuestionAndAnswers } : Model).state
        ≠ State.WaitingForResponse
      ∧ (update { initialModel with state := State.DisplayingQuestionAndAnswers }
            (Msg.seResponse { Items := [] })).1
          ≠ { initialModel with state := State.DisplayingQuestionAndAnswers } := by
  decide

/-- C1 (amended): the `SEResponse` handler checks no state guard — a search
outcome is applied in every state: an empty outcome moves the session to
`WaitingForInput` and emits the warning, a non-empty one stores the result
and moves to `DisplayingAllQuestions`; a late arrival is never discarded. -/
theorem c1_outcome_applied_in_any_state (m : Model) (r : SEResponse) :
    (update m (Msg.seResponse r)).1.state
        = (if r.Items.isEmpty then State.WaitingForInput
           else State.DisplayingAllQuestions)
      ∧ (update m (Msg.seResponse r)).1.response
          = (if r.Items.isEmpty then m.response else r)
      ∧ (update m (Msg.seResponse r)).2
          = (if r.Items.isEmpty then [Eff.emitLog "No results found" LogType.Warning]
             else []) := by
  unfold update
  simp only [textareaUpdate, tableUpdate, viewportUpdate]
  by_cases h : r.Items.isEmpty <;> simp [h]

/-- C2 (counterexample): the claim fails — at the initial session the input
is empty, yet pressing the confirm key dispatches a search. -/
theorem c2_counterexample :
    initialModel.textarea.value = ""
      ∧ (update initialModel Msg.keyEnter).2.any Eff.isDispatch = true := by
  decide

/-- C2 (amended): a search is dispatched exactly when the event is the
confirm key and the state is `WaitingForInput`; the entered text is passed
as the query even when it is empty (no non-empty guard), and no other
event or state dispatches, so at most one search is in flight. -/
theorem c2_dispatch_iff_awaiting_input (m : Model) (msg : Msg) :
    (update m msg).2.any Eff.isDispatch = true
      ↔ msg = Msg.keyEnter ∧ m.state = State.WaitingForInput := by
  cases msg <;>
    simp only [update, textareaUpdate, tableUpdate, viewportUpdate] <;>
    first
      | (split_ifs <;> simp_all [Eff.isDispatch])
      | simp_all [Eff.isDispatch]

/-- C3 (code evaluated): the log handler schedules exactly one clearing
event at a fixed 3-second delay for a non-empty message and nothing for
the empty one, but in both cases it returns the session unchanged — the
session stores no notification, so nothing is ever displayed, superseded
or cleared (the overlay add/remove sites are TODO stubs in the source). -/
theorem c3_log_handler_stub (m : Model) (l : Log) :
    update m (Msg.logMsg l)
      = (m, if l.Msg = "" then [] else [Eff.scheduleClearLog 3]) := by
  unfold update
  simp only [textareaUpdate, tableUpdate, viewportUpdate]
  by_cases h : l.Msg = "" <;> simp [h]

/-- C4 (code evaluated): the back key in the help screen always moves to
`WaitingForInput` and in the comments view always to
`DisplayingQuestionAndAnswers` — fixed, hardcoded targets independent of
whatever state preceded entry (the session keeps no history). -/
theorem c4_back_hardcoded_targets (m : Model) :
    (update { m with state := State.DisplayingHelpScreen } Msg.keyBackspace).1.state
        = State.WaitingForInput
      ∧ (update { m with state := State.DisplayingAllComments } Msg.keyBackspace).1.state
          = State.DisplayingQuestionAndAnswers := by
  constructor <;> simp [update, textareaUpdate, tableUpdate, viewportUpdate]

/-- C5: an empty search outcome processed while the state is
`WaitingForResponse` moves the session to `WaitingForInput` and the
effect list contains exactly one notification — the Warning
"No results found". -/
theorem c5_empty_result_warning (m : Model) (r : SEResponse)
    (_hs : m.state = State.WaitingForResponse) (hr : r.Items = []) :
    (update m (Msg.seResponse r)).1.state = State.WaitingForInput
      ∧ (update m (Msg.seResponse r)).2
          = [Eff.emitLog "No results found" LogType.Warning] := by
  unfold update
  simp only [textareaUpdate, tableUpdate, viewportUpdate]
  simp [hr]

/-- C5 (witness): the empty outcome at a concrete pending session. -/
theorem c5_witness :
    (update { initialModel with state := State.WaitingForResponse }
        (Msg.seResponse { Items := [] })).1.state = State.WaitingForInput
      ∧ (update { initialModel with state := State.WaitingForResponse }
          (Msg.seResponse { Items := [] })).2
        = [Eff.emitLog "No results found" LogType.Warning] :=
  c5_empty_result_warning _ _ rfl rfl

/-- The selection-resolution loop returns either the first stored item
carrying the requested id, or the zero-value placeholder when no stored
item carries it. -/
theorem findRow_spec (items : List ResponseItem) (rid : Int) :
    (findRow items rid ∈ items ∧ (findRow items rid).QuestionID = rid)
      ∨ ((∀ it ∈ items, it.QuestionID ≠ rid)
          ∧ findRow items rid = emptyResponseItem) := by
  induction items with
  | nil =>
      right
      refine ⟨?_, rfl⟩
      intro it h
      cases h
  | cons it rest ih =>
      by_cases h : it.QuestionID = rid
      · left
        refine ⟨?_, ?_⟩ <;> simp [findRow, h]
      · have hfr : findRow (it :: rest) rid = findRow rest rid := by
          simp [findRow, h]
        rcases ih with ⟨h1, h2⟩ | ⟨h1, h2⟩
        · left
          exact ⟨by rw [hfr]; exact List.mem_cons_of_mem _ h1, by rw [hfr]; exact h2⟩
        · right
          refine ⟨?_, by rw [hfr]; exact h2⟩
          intro x hx
          rcases List.mem_cons.mp hx with rfl | hx
          · exact h
          · exact h1 x hx

/-- C6: confirming in the result list always succeeds — the session moves
to the detail state, the document is built from the item resolved by the
selected row's identifier (the item carrying that id when one exists, the
zero-value placeholder otherwise, never any other item), and the document
is scrolled to the top. -/
theorem c6_detail_from_selected_id (m : Model)
    (hs : m.state = State.DisplayingAllQuestions) :
    (update m Msg.keyEnter).1.state = State.DisplayingQuestionAndAnswers
      ∧ (update m Msg.keyEnter).1.viewport.content
          = buildDoc m.viewport.width (findRow m.response.Items (selectedRowId m))
      ∧ (update m Msg.keyEnter).1.viewport.yOffset = 0
      ∧ ((findRow m.response.Items (selectedRowId m) ∈ m.response.Items
            ∧ (findRow m.response.Items (selectedRowId m)).QuestionID = selectedRowId m)
          ∨ ((∀ it ∈ m.response.Items, it.QuestionID ≠ selectedRowId m)
              ∧ findRow m.response.Items (selectedRowId m) = emptyResponseItem)) := by
  refine ⟨?_, ?_, ?_, findRow_spec m.response.Items (selectedRowId m)⟩ <;>
    · unfold update
      simp only [textareaUpdate, tableUpdate, viewportUpdate]
      simp [hs]
      try rfl

/-- C6 (witness): the spec's example — items with ids 1 and 2, row id 2
selected; confirming builds the detail view from item 2, never item 1. -/
theorem c6_witness :
    sampleModel.state = State.DisplayingAllQuestions
      ∧ selectedRowId sampleModel = 2
      ∧ (update sampleModel Msg.keyEnter).1.state = State.DisplayingQuestionAndAnswers
      ∧ (update sampleModel Msg.keyEnter).1.viewport.content
          = buildDoc 30
              { QuestionID := 2, Title := "B", BodyMarkdown := "", Score := 0,
                ViewCount := 0, Answers := [] } := by
  refine ⟨rfl, by decide, (c6_detail_from_selected_id sampleModel rfl).1, ?_⟩
  have h := (c6_detail_from_selected_id sampleModel rfl).2.1
  rw [h]
  rfl

/-- C8 (counterexample): the claim fails — with the fatal error latched,
the confirm key still changes the `State` field (to `WaitingForResponse`):
handlers never consult the error field. -/
theorem c8_counterexample :
    ({ initialModel with err := some "search failed" } : Model).err.isSome = true
      ∧ (update { initialModel with err := some "search failed" } Msg.keyEnter).1.state
          ≠ ({ initialModel with err := some "search failed" } : Model).state := by
  decide

/-- C8 (amended): once the fatal-error field is set it stays set across
every further event (only another error event can overwrite its text),
and the handler — a total function — keeps processing events without
crashing; but handlers ignore the field, so state transitions continue
exactly as in the error-free session and only rendering is overridden. -/
theorem c8_error_latched (m : Model) (msg : Msg) (h : m.err.isSome = true) :
    ((update m msg).1.err).isSome = true := by
  cases msg <;>
    simp only [update, textareaUpdate, tableUpdate, viewportUpdate] <;>
    first
      | (split_ifs <;> simp_all)
      | simp_all

/-- C8 (witness): the latched error survives a further event. -/
theorem c8_witness :
    ({ initialModel with err := some "search failed" } : Model).err.isSome = true
      ∧ ((update { initialModel with err := some "search failed" } Msg.keyCtrlS).1.err).isSome
          = true :=
  ⟨rfl, c8_error_latched _ Msg.keyCtrlS rfl⟩

/-- C9: whenever the fatal-error field is set, the renderer returns the
error text, whatever the state — the input, spinner, table and document
branches are never reached; rendering is a pure function of the session. -/
theorem c9_error_overrides_view (m : Model) (e : String) (h : m.err = some e) :
    m.view = e := by
  simp [Model.view, h]

/-- C9 (witness): a concrete erroring session in the result-list state
renders the error text instead of the table. -/
theorem c9_witness :
    ({ sampleModel with err := some "could not reach the search backend" } : Model).err
        = some "could not reach the search backend"
      ∧ ({ sampleModel with err := some "could not reach the search backend" } : Model).view
          = "could not reach the search backend" :=
  ⟨rfl, c9_error_overrides_view _ _ rfl⟩

/-- C10 (code evaluated at the failing input): the stale-cursor session —
reached from startup by a five-item result, moving the cursor to row 4,
backing out, and a second, two-item result — is a reachable session in
the result-list state whose stored result and rows are non-empty, yet
whose cursor (still 4, since `SetRows` does not clamp it) lies outside
the two rows: the confirm handler's `SelectedRow()[0]` read at tui.go
line 212 indexes out of range there (the Go program panics), so the
claimed bounds safety fails. -/
theorem c10_stale_cursor_panic :
    Reachable staleModel
      ∧ (staleModel.state = State.DisplayingAllQuestions
          ∧ staleModel.response.Items ≠ []
          ∧ staleModel.table.rows ≠ []
          ∧ staleModel.table.rows.length = 2
          ∧ staleModel.table.cursor = 4
          ∧ selectedRow? staleModel = none) := by
  refine ⟨?_, by decide⟩
  exact Reachable.step _ _ (Reachable.step _ _ (Reachable.step _ _
    (Reachable.step _ _ (Reachable.step _ _ (Reachable.step _ _ Reachable.init)))))

end Sotui
